import Mathlib

/-!
Shallow embedding of `simple_stock_scraper.py` (the single source file of the
repository): a Yahoo-Finance stock scraper built on a browser-automation
backend.  The browser backend is modelled as an oracle (`Driver`) fixing the
outcome of every backend interaction; the workflow
`SimpleStockScraper.get_yahoo_finance_data` and the CLI `main` are translated
into pure Lean functions that return the computed snapshot together with the
trace of backend interactions and the list of files written.
-/

namespace StockScraper

/-! ## String helpers (substring test, `toLower`, the dollar-amount regex) -/

/-- Substring test on character lists: `pat` occurs somewhere in `l`.
Embeds Python's `in` operator on strings. -/
def containsSub (l pat : List Char) : Bool :=
  if pat.isPrefixOf l then true
  else
    match l with
    | [] => false
    | _ :: t => containsSub t pat

/-- Python's substring membership test `pat in s`. -/
def containsSubstr (s pat : String) : Bool :=
  containsSub s.data pat.data

/-- Python's `str.lower()` (ASCII-level model via `Char.toLower`). -/
def strLower (s : String) : String :=
  ⟨s.data.map Char.toLower⟩

/-- Semantics of the JavaScript regex `/^\$\d+\.\d+$/` used by the
last-resort price fallback in `get_yahoo_finance_data`: a dollar sign,
one or more digits, a dot, one or more digits, and nothing else. -/
def isDollarAmount (s : String) : Bool :=
  match s.data with
  | '$' :: rest =>
    let intPart := rest.takeWhile Char.isDigit
    let afterInt := rest.dropWhile Char.isDigit
    !intPart.isEmpty &&
      (match afterInt with
       | '.' :: frac => !frac.isEmpty && frac.all Char.isDigit
       | _ => false)
  | _ => false

/-! ## Page model and in-page script semantics

The scripts the scraper evaluates in the page only ever call
`document.querySelectorAll(sel)` and read `textContent` of the results
(plus, for the price probe, a scan of `querySelectorAll("*")`).  A page is
therefore modelled by the text contents each selector query returns, plus
the text contents of all elements for the wildcard scan. -/

structure Page where
  /-- Result of `document.querySelectorAll(sel)`, mapped to the
  `textContent` of each returned element, in document order. -/
  query : String → List String
  /-- The `textContent` of every element returned by
  `querySelectorAll("*")`, in document order. -/
  allTexts : List String

/-- The scripts `get_yahoo_finance_data` passes to `driver.execute_script`,
identified by role; their in-page semantics is `runScript`. -/
inductive Script where
  | consentClick
  | priceProbe
  | changeProbe
  | percentProbe
  | prevCloseProbe
  | openProbe
  | volumeProbe
deriving DecidableEq, Repr

/-- The selector list of the price script, verbatim from the source
(the fourth entry hard-codes `data-symbol='AAPL'`). -/
def priceSelectors : List String :=
  ["[data-test=\x27quote-header-info\x27] fin-streamer[data-field=\x27regularMarketPrice\x27]",
   ".quote-header-section span[data-reactid=\x2732\x27]",
   ".Fw\\(b\\).Fz\\(36px\\)",
   "fin-streamer[data-symbol=\x27AAPL\x27][data-field=\x27regularMarketPrice\x27]"]

/-- The selector list of the change script, verbatim from the source. -/
def changeSelectors : List String :=
  ["[data-test=\x27quote-header-info\x27] fin-streamer[data-field=\x27regularMarketChange\x27]",
   ".quote-header-section span[data-reactid=\x2733\x27]"]

/-- The selector list of the percent-change script, verbatim from the source. -/
def percentSelectors : List String :=
  ["[data-test=\x27quote-header-info\x27] fin-streamer[data-field=\x27regularMarketChangePercent\x27]",
   ".quote-header-section span[data-reactid=\x2734\x27]"]

/-- Selector of the previous-close script. -/
def prevCloseSelector : String := "td[data-test=\x27PREV_CLOSE-value\x27]"

/-- Selector of the open-price script. -/
def openSelector : String := "td[data-test=\x27OPEN-value\x27]"

/-- Selector of the volume script. -/
def volumeSelector : String := "td[data-test=\x27TD_VOLUME-value\x27]"

/-- The selector-fallback loop shared by the probe scripts: try each selector
in order, return the text of the first element of the first selector that
matches anything. -/
def firstSelectorText (p : Page) : List String → Option String
  | [] => none
  | sel :: rest =>
    match p.query sel with
    | [] => firstSelectorText p rest
    | t :: _ => some t

/-- In-page semantics of each script evaluated by the scraper, translated
from the JavaScript bodies in the source.  The consent-click script returns
`"true"`/`"false"` depending on whether a button whose text contains
Accept/Agree/Consent exists; its return value is discarded by the caller. -/
def runScript (s : Script) (p : Page) : String :=
  match s with
  | .consentClick =>
    if (p.query "button").any (fun t =>
        containsSubstr t "Accept" || containsSubstr t "Agree" ||
        containsSubstr t "Consent")
    then "true" else "false"
  | .priceProbe =>
    match firstSelectorText p priceSelectors with
    | some t => t
    | none =>
      match p.allTexts.find? isDollarAmount with
      | some t => t
      | none => "N/A"
  | .changeProbe =>
    match firstSelectorText p changeSelectors with
    | some t => t
    | none => "N/A"
  | .percentProbe =>
    match firstSelectorText p percentSelectors with
    | some t => t
    | none => "N/A"
  | .prevCloseProbe =>
    match p.query prevCloseSelector with
    | [] => "N/A"
    | t :: _ => t
  | .openProbe =>
    match p.query openSelector with
    | [] => "N/A"
    | t :: _ => t
  | .volumeProbe =>
    match p.query volumeSelector with
    | [] => "N/A"
    | t :: _ => t

/-! ## Backend oracle, events, files -/

/-- Oracle fixing the behaviour of the browser-automation backend for one
run: which operations raise, the page title, and the page contents seen by
the evaluated scripts. -/
structure Driver where
  /-- The `Driver(headless=...)` constructor raises. -/
  startFails : Bool
  /-- Whether `driver.get(url)` raises. -/
  navFails : Bool
  /-- The value of `driver.title`. -/
  title : String
  /-- The value of `driver.page_source` (read once; only its length is logged). -/
  pageSource : String
  /-- The page against which `driver.execute_script` scripts run. -/
  page : Page
  /-- Whether `driver.execute_script` raises for this script. -/
  evalFails : Script → Bool
  /-- Whether `driver.save_screenshot(path)` raises. -/
  screenshotFails : Bool

/-- One interaction with the browser-automation backend. -/
inductive Event where
  | navigate (url : String)
  | evalScript (s : Script)
  | getTitle
  | getPageSource
  | screenshot (path : String)
  | shutdown
deriving DecidableEq, Repr

/-- A file written under the results directory. -/
inductive FileWrite where
  | json (path : String) (content : List (String × String))
  | png (path : String)
deriving DecidableEq, Repr

/-- The quote snapshot built by `get_yahoo_finance_data`. -/
structure StockResult where
  symbol : String
  price : String
  change : String
  percent_change : String
  previous_close : String
  openPrice : String
  volume : String
  source : String
  timestamp : String
deriving DecidableEq, Repr

/-- The dictionary persisted by `_save_result`, as ordered key/value pairs
(the key order of the `result` literal in the source). -/
def StockResult.toPairs (r : StockResult) : List (String × String) :=
  [("symbol", r.symbol),
   ("price", r.price),
   ("change", r.change),
   ("percent_change", r.percent_change),
   ("previous_close", r.previous_close),
   ("open", r.openPrice),
   ("volume", r.volume),
   ("source", r.source),
   ("timestamp", r.timestamp)]

/-- The results directory, `self.results_dir = "stock_results"`. -/
def resultsDir : String := "stock_results"

/-- Mutable state of `SimpleStockScraper`: whether `self.driver` is set. -/
structure ScraperState where
  driverOpen : Bool
deriving DecidableEq, Repr

/-- Method `_init_selenium`: create the driver only when none exists.  Returns the
new state and whether a fresh handle was created; `Except.error` means the
`Driver(...)` constructor raised (uncaught here). -/
def initSelenium (d : Driver) (st : ScraperState) :
    Except Unit (ScraperState × Bool) :=
  if st.driverOpen then .ok (st, false)
  else if d.startFails then .error ()
  else .ok (⟨true⟩, true)

/-- Method `close`: quit the driver if open (emitting a `shutdown` backend call)
and reset `self.driver` to `None`. -/
def closeScraper (st : ScraperState) : ScraperState × List Event :=
  if st.driverOpen then (⟨false⟩, [.shutdown]) else (st, [])

/-! ## The workflow `get_yahoo_finance_data` -/

/-- Output of one call to `get_yahoo_finance_data`: the returned value
(`Except.error` = an exception propagated uncaught to the caller,
`Except.ok none` = the method returned `None`), the scraper state after the
call, the trace of backend interactions, and the files written. -/
structure MethodOut where
  ret : Except Unit (Option StockResult)
  stAfter : ScraperState
  events : List Event
  files : List FileWrite
deriving Repr

/-- Screenshot path: `f"{symbol}_screenshot.png"` joined onto the results
directory. -/
def screenshotPath (symbol : String) : String :=
  resultsDir ++ "/" ++ symbol ++ "_screenshot.png"

/-- Result-file path: `f"{symbol}_yahoo.json"` joined onto the results
directory (by `_save_result`). -/
def jsonPath (symbol : String) : String :=
  resultsDir ++ "/" ++ symbol ++ "_yahoo.json"

/-- Method `SimpleStockScraper.get_yahoo_finance_data`, translated line by line:
init the driver (outside the `try`), navigate, read the title, best-effort
consent click when the lowercased title contains `"consent"`, read
`page_source`, evaluate the three primary probes (a failure of any is caught
by the outer handler, which returns `None`), evaluate the three secondary
probes inside their own `try` (defaults `"N/A"`), save the screenshot, build
the result, persist it, return it.  `now` stands for
`datetime.now().isoformat()`. -/
def get_yahoo_finance_data (d : Driver) (st : ScraperState)
    (symbol now : String) : MethodOut :=
  match initSelenium d st with
  | .error _ => ⟨.error (), st, [], []⟩
  | .ok (st1, _) =>
    let url := "https://finance.yahoo.com/quote/" ++ symbol
    let e0 := [Event.navigate url]
    if d.navFails then ⟨.ok none, st1, e0, []⟩
    else
      let e1 := e0 ++ [Event.getTitle]
      let e2 :=
        if containsSubstr (strLower d.title) "consent"
        then e1 ++ [Event.evalScript .consentClick]
        else e1
      -- a consent-click failure is caught and ignored by the inner handler
      let e3 := e2 ++ [Event.getPageSource]
      let e4 := e3 ++ [Event.evalScript .priceProbe]
      if d.evalFails .priceProbe then ⟨.ok none, st1, e4, []⟩
      else
        let price := runScript .priceProbe d.page
        let e5 := e4 ++ [Event.evalScript .changeProbe]
        if d.evalFails .changeProbe then ⟨.ok none, st1, e5, []⟩
        else
          let change := runScript .changeProbe d.page
          let e6 := e5 ++ [Event.evalScript .percentProbe]
          if d.evalFails .percentProbe then ⟨.ok none, st1, e6, []⟩
          else
            let percent := runScript .percentProbe d.page
            -- prev_close = open_price = volume = "N/A"; inner try block
            let sec :=
              let e7 := e6 ++ [Event.evalScript .prevCloseProbe]
              if d.evalFails .prevCloseProbe then ("N/A", "N/A", "N/A", e7)
              else
                let prev := runScript .prevCloseProbe d.page
                let e8 := e7 ++ [Event.evalScript .openProbe]
                if d.evalFails .openProbe then (prev, "N/A", "N/A", e8)
                else
                  let openP := runScript .openProbe d.page
                  let e9 := e8 ++ [Event.evalScript .volumeProbe]
                  if d.evalFails .volumeProbe then (prev, openP, "N/A", e9)
                  else (prev, openP, runScript .volumeProbe d.page, e9)
            let prev := sec.1
            let openP := sec.2.1
            let vol := sec.2.2.1
            let e10 := sec.2.2.2 ++ [Event.screenshot (screenshotPath symbol)]
            if d.screenshotFails then ⟨.ok none, st1, e10, []⟩
            else
              let result : StockResult :=
                { symbol := symbol, price := price, change := change,
                  percent_change := percent, previous_close := prev,
                  openPrice := openP, volume := vol,
                  source := "Yahoo Finance", timestamp := now }
              ⟨.ok (some result), st1, e10,
               [.png (screenshotPath symbol),
                .json (jsonPath symbol) result.toPairs]⟩

/-! ## CLI: `print_stock_data` and `main` -/

/-- Function `print_stock_data`: the lines printed for a snapshot (or its absence). -/
def printStockData (data : Option StockResult) : List String :=
  match data with
  | none => ["No data available"]
  | some d =>
    ["=== Stock Data ===",
     "Symbol: " ++ d.symbol,
     "Price: " ++ d.price,
     "Change: " ++ d.change,
     "Percent Change: " ++ d.percent_change,
     "Previous Close: " ++ d.previous_close,
     "Open: " ++ d.openPrice,
     "Volume: " ++ d.volume,
     "Source: " ++ d.source,
     "Timestamp: " ++ d.timestamp]

/-- Output of one process run of `main`. -/
structure MainOut where
  /-- The lines printed after the startup banner: the `print_stock_data`
  output and the completion line, or the `except` branch's error line. -/
  printed : List String
  /-- The process exit status. -/
  exitCode : Nat
  /-- Scraper state after the `finally` block. -/
  stAfter : ScraperState
  events : List Event
  files : List FileWrite
deriving Repr

/-- Function `main`: build a fresh scraper (`self.driver = None`), run
`get_yahoo_finance_data`, print the summary (or the caught error), and
always `close()` in the `finally` block.  `main` never calls `sys.exit`,
so the process exit code is 0 on every path. -/
def mainRun (d : Driver) (symbol now : String) : MainOut :=
  let st0 : ScraperState := ⟨false⟩
  let m := get_yahoo_finance_data d st0 symbol now
  match m.ret with
  | .error _ =>
    let c := closeScraper m.stAfter
    ⟨["An error occurred"], 0, c.1, m.events ++ c.2, m.files⟩
  | .ok data =>
    let c := closeScraper m.stAfter
    ⟨printStockData data ++ ["Scraping completed successfully!"], 0, c.1,
     m.events ++ c.2, m.files⟩

/-! ## Derived characterizations and predicates used by the theorems -/

/-- The snapshot a successful run produces, as a function of the oracle:
primary fields come from their probe scripts; each secondary field is `"N/A"`
when the secondary `try` block failed at or before its own evaluation. -/
def snapshotOf (d : Driver) (symbol now : String) : StockResult :=
  { symbol := symbol,
    price := runScript .priceProbe d.page,
    change := runScript .changeProbe d.page,
    percent_change := runScript .percentProbe d.page,
    previous_close :=
      if d.evalFails .prevCloseProbe then "N/A"
      else runScript .prevCloseProbe d.page,
    openPrice :=
      if d.evalFails .prevCloseProbe || d.evalFails .openProbe then "N/A"
      else runScript .openProbe d.page,
    volume :=
      if d.evalFails .prevCloseProbe || d.evalFails .openProbe ||
         d.evalFails .volumeProbe then "N/A"
      else runScript .volumeProbe d.page,
    source := "Yahoo Finance",
    timestamp := now }

/-- The price probe extracted nothing: no selector matched and no element
text matched the dollar-amount fallback pattern. -/
def priceNotExtracted (p : Page) : Bool :=
  (firstSelectorText p priceSelectors).isNone &&
    (p.allTexts.find? isDollarAmount).isNone

/-- The change probe extracted nothing: no selector matched. -/
def changeNotExtracted (p : Page) : Bool :=
  (firstSelectorText p changeSelectors).isNone

/-- The percent-change probe extracted nothing: no selector matched. -/
def percentNotExtracted (p : Page) : Bool :=
  (firstSelectorText p percentSelectors).isNone

/-- Previous close was not successfully extracted: its evaluation raised,
or its selector matched nothing. -/
def prevCloseNotExtracted (d : Driver) : Bool :=
  d.evalFails .prevCloseProbe || (d.page.query prevCloseSelector).isEmpty

/-- Open was not successfully extracted: the secondary block failed at or
before its evaluation, or its selector matched nothing. -/
def openNotExtracted (d : Driver) : Bool :=
  d.evalFails .prevCloseProbe || d.evalFails .openProbe ||
    (d.page.query openSelector).isEmpty

/-- Volume was not successfully extracted: the secondary block failed at or
before its evaluation, or its selector matched nothing. -/
def volumeNotExtracted (d : Driver) : Bool :=
  d.evalFails .prevCloseProbe || d.evalFails .openProbe ||
    d.evalFails .volumeProbe || (d.page.query volumeSelector).isEmpty

/-- The nine keys of the persisted JSON object, in source order. -/
def nineKeys : List String :=
  ["symbol", "price", "change", "percent_change", "previous_close", "open",
   "volume", "source", "timestamp"]

/-- Is this event the consent click-injection evaluation? -/
def isConsentEval : Event → Bool
  | .navigate _ => false
  | .evalScript s => decide (s = Script.consentClick)
  | .getTitle => false
  | .getPageSource => false
  | .screenshot _ => false
  | .shutdown => false

/-- Is this event a data-extraction script evaluation? -/
def isDataEval : Event → Bool
  | .navigate _ => false
  | .evalScript s => !decide (s = Script.consentClick)
  | .getTitle => false
  | .getPageSource => false
  | .screenshot _ => false
  | .shutdown => false

/-- Number of consent click-injection evaluations in a trace. -/
def consentEvalCount (evs : List Event) : Nat :=
  evs.countP isConsentEval

/-- Attribute-selector semantics for the CSS attribute selectors used by the
price probe: the selector matches an element iff every required
attribute/value pair is carried by the element. -/
def attrSelectorMatches (required attrs : List (String × String)) : Bool :=
  required.all (fun kv => decide (attrs.lookup kv.1 = some kv.2))

/-- The attribute requirements transcribed from the fourth (last) selector
of `priceSelectors`,
`fin-streamer[data-symbol=\x27AAPL\x27][data-field=\x27regularMarketPrice\x27]`. -/
def fourthSelectorAttrs : List (String × String) :=
  [("data-symbol", "AAPL"), ("data-field", "regularMarketPrice")]

/-- Written to the spec's words (section 6, External interfaces), for
comparison with the code: an event is one of the five capabilities the spec
lists — `navigate(url)`, `evaluateScript(js)`, `currentTitle()`,
`captureScreenshot(path)`, `shutdown()`. -/
def specListedCapability (e : Event) : Bool :=
  match e with
  | .navigate _ => true
  | .evalScript _ => true
  | .getTitle => true
  | .screenshot _ => true
  | .shutdown => true
  | .getPageSource => false

/-! ## Concrete oracles for witnesses and counterexamples -/

/-- A page on which no selector matches and no element text exists. -/
def emptyPage : Page := ⟨fun _ => [], []⟩

/-- A fully successful backend: nothing raises, no consent interstitial,
an empty page (all probes fall through to `"N/A"`). -/
def driverOk : Driver :=
  { startFails := false, navFails := false,
    title := "Apple Inc. (AAPL) Stock Price", pageSource := "<html></html>",
    page := emptyPage, evalFails := fun _ => false, screenshotFails := false }

/-- A backend showing the consent interstitial before a successful run. -/
def driverConsent : Driver :=
  { driverOk with title := "consent.example.com" }

/-- A backend whose navigation raises. -/
def driverNavFail : Driver :=
  { driverOk with navFails := true }

/-- A backend whose construction (session start) raises. -/
def driverStartFail : Driver :=
  { driverOk with startFails := true }

/-- A page whose previous-close selector matches an element with text
`"300.00"` and on which nothing else matches. -/
def pagePrevClose : Page :=
  ⟨fun s => if s = prevCloseSelector then ["300.00"] else [], []⟩

/-- A backend on which previous close extracts `"300.00"` but the open-price
evaluation raises. -/
def driverOpenEvalFails : Driver :=
  { driverOk with
    page := pagePrevClose,
    evalFails := fun s => decide (s = Script.openProbe) }

/-! ## Helper lemmas -/

/-- Helper: `_init_selenium` raises exactly when no driver exists yet and the
constructor raises. -/
theorem initSelenium_error_iff (d : Driver) (st : ScraperState) (u : Unit) :
    initSelenium d st = .error u ↔
      st.driverOpen = false ∧ d.startFails = true := by
  unfold initSelenium
  rcases h : st.driverOpen <;> rcases h2 : d.startFails <;> simp [h, h2]

set_option maxHeartbeats 2000000 in
/-- Every run either propagates the start failure, returns `none` with no
files, or returns the oracle-determined snapshot with both files. -/
theorem run_char (d : Driver) (st : ScraperState) (symbol now : String) :
    ((get_yahoo_finance_data d st symbol now).ret = .error () ∧
     (get_yahoo_finance_data d st symbol now).files = []) ∨
    ((get_yahoo_finance_data d st symbol now).ret = .ok none ∧
     (get_yahoo_finance_data d st symbol now).files = []) ∨
    ((get_yahoo_finance_data d st symbol now).ret =
       .ok (some (snapshotOf d symbol now)) ∧
     (get_yahoo_finance_data d st symbol now).files =
       [.png (screenshotPath symbol),
        .json (jsonPath symbol) (snapshotOf d symbol now).toPairs]) := by
  unfold get_yahoo_finance_data
  repeat' split
  all_goals simp_all [snapshotOf]

set_option maxHeartbeats 2000000 in
/-- If the lowercased page title does not contain `"consent"`, no trace ever
holds a consent click-injection evaluation. -/
theorem consent_count_zero (d : Driver) (st : ScraperState) (symbol now : String)
    (h : containsSubstr (strLower d.title) "consent" = false) :
    consentEvalCount (get_yahoo_finance_data d st symbol now).events = 0 := by
  unfold get_yahoo_finance_data
  repeat' split
  all_goals simp_all [consentEvalCount, isConsentEval]

set_option maxHeartbeats 2000000 in
/-- If the session starts, navigation succeeds and the title matches the
consent heuristic, the trace holds exactly one consent evaluation and no
data-extraction evaluation precedes it. -/
theorem consent_once_first (d : Driver) (st : ScraperState) (symbol now : String)
    (hs : d.startFails = false) (hn : d.navFails = false)
    (hc : containsSubstr (strLower d.title) "consent" = true) :
    consentEvalCount (get_yahoo_finance_data d st symbol now).events = 1 ∧
    (((get_yahoo_finance_data d st symbol now).events.takeWhile
        (fun e => !isConsentEval e)).countP isDataEval = 0) := by
  unfold get_yahoo_finance_data
  repeat' split
  all_goals simp_all [consentEvalCount, isConsentEval, isDataEval,
    initSelenium_error_iff]

set_option maxHeartbeats 2000000 in
/-- If the session starts and navigation succeeds, the price probe script is
evaluated. -/
theorem price_eval_in_events (d : Driver) (st : ScraperState) (symbol now : String)
    (hs : d.startFails = false) (hn : d.navFails = false) :
    Event.evalScript .priceProbe ∈
      (get_yahoo_finance_data d st symbol now).events := by
  unfold get_yahoo_finance_data
  repeat' split
  all_goals simp_all [initSelenium_error_iff]

/-- A price probe that extracted nothing returns the sentinel. -/
theorem priceNotExtracted_runScript (p : Page) (h : priceNotExtracted p = true) :
    runScript .priceProbe p = "N/A" := by
  unfold priceNotExtracted at h
  unfold runScript
  rcases hf : firstSelectorText p priceSelectors with _ | t <;>
    rcases ha : p.allTexts.find? isDollarAmount with _ | u <;>
    simp_all

/-- A change probe that extracted nothing returns the sentinel. -/
theorem changeNotExtracted_runScript (p : Page) (h : changeNotExtracted p = true) :
    runScript .changeProbe p = "N/A" := by
  unfold changeNotExtracted at h
  unfold runScript
  rcases hf : firstSelectorText p changeSelectors with _ | t <;> simp_all

/-- A percent probe that extracted nothing returns the sentinel. -/
theorem percentNotExtracted_runScript (p : Page) (h : percentNotExtracted p = true) :
    runScript .percentProbe p = "N/A" := by
  unfold percentNotExtracted at h
  unfold runScript
  rcases hf : firstSelectorText p percentSelectors with _ | t <;> simp_all

/-- An unextracted previous close is the sentinel in the snapshot. -/
theorem prevCloseNotExtracted_snapshot (d : Driver) (symbol now : String)
    (h : prevCloseNotExtracted d = true) :
    (snapshotOf d symbol now).previous_close = "N/A" := by
  unfold prevCloseNotExtracted at h
  unfold snapshotOf runScript
  rcases hp : d.evalFails .prevCloseProbe <;>
    rcases hq : d.page.query prevCloseSelector with _ | ⟨t, ts⟩ <;> simp_all

/-- An unextracted open price is the sentinel in the snapshot. -/
theorem openNotExtracted_snapshot (d : Driver) (symbol now : String)
    (h : openNotExtracted d = true) :
    (snapshotOf d symbol now).openPrice = "N/A" := by
  unfold openNotExtracted at h
  unfold snapshotOf runScript
  rcases hp : d.evalFails .prevCloseProbe <;>
    rcases ho : d.evalFails .openProbe <;>
    rcases hq : d.page.query openSelector with _ | ⟨t, ts⟩ <;> simp_all

/-- An unextracted volume is the sentinel in the snapshot. -/
theorem volumeNotExtracted_snapshot (d : Driver) (symbol now : String)
    (h : volumeNotExtracted d = true) :
    (snapshotOf d symbol now).volume = "N/A" := by
  unfold volumeNotExtracted at h
  unfold snapshotOf runScript
  rcases hp : d.evalFails .prevCloseProbe <;>
    rcases ho : d.evalFails .openProbe <;>
    rcases hv : d.evalFails .volumeProbe <;>
    rcases hq : d.page.query volumeSelector with _ | ⟨t, ts⟩ <;> simp_all

/-- C1: for every symbol string, one invocation of `get_yahoo_finance_data`
either produces exactly one JSON file and one screenshot file, both named
with that symbol, or produces neither file. -/
theorem C1_all_or_nothing (d : Driver) (st : ScraperState) (symbol now : String) :
    (∃ c, (get_yahoo_finance_data d st symbol now).files =
        [.png (screenshotPath symbol), .json (jsonPath symbol) c]) ∨
    (get_yahoo_finance_data d st symbol now).files = [] := by
  rcases run_char d st symbol now with ⟨_, h⟩ | ⟨_, h⟩ | ⟨_, h⟩
  · exact Or.inr h
  · exact Or.inr h
  · exact Or.inl ⟨(snapshotOf d symbol now).toPairs, h⟩

/-- C6: the last-resort price-extraction fallback pattern accepts
`"$123.45"` and rejects `"123.45"` (missing currency symbol) and `"$123"`
(missing fractional part); correspondingly, the price probe returns the
accepted text and falls through to the sentinel on the rejected ones. -/
theorem C6_price_fallback_pattern :
    isDollarAmount "$123.45" = true ∧
    isDollarAmount "123.45" = false ∧
    isDollarAmount "$123" = false ∧
    runScript .priceProbe ⟨fun _ => [], ["$123.45"]⟩ = "$123.45" ∧
    runScript .priceProbe ⟨fun _ => [], ["123.45"]⟩ = "N/A" ∧
    runScript .priceProbe ⟨fun _ => [], ["$123"]⟩ = "N/A" := by
  refine ⟨rfl, rfl, rfl, ?_, ?_, ?_⟩ <;> decide

/-- C8: if starting the browser handle fails, the failure propagates
uncaught out of `get_yahoo_finance_data`; it is not converted into an
absent (`None`) snapshot. -/
theorem C8_start_failure_propagates (d : Driver) (symbol now : String)
    (h : d.startFails = true) :
    (get_yahoo_finance_data d ⟨false⟩ symbol now).ret = .error () ∧
    (get_yahoo_finance_data d ⟨false⟩ symbol now).ret ≠ .ok none := by
  constructor <;> simp [get_yahoo_finance_data, initSelenium, h]

/-- Witness for C8 at a concrete backend whose constructor raises. -/
theorem C8_start_failure_propagates_witness :
    (get_yahoo_finance_data driverStartFail ⟨false⟩ "AAPL" "2024-01-01T00:00:00").ret
      = .error () :=
  (C8_start_failure_propagates driverStartFail "AAPL" "2024-01-01T00:00:00" rfl).1

/-- C7: `_init_selenium` is idempotent (creates the handle only when none
exists, no-op otherwise) and `close` quits a present handle and resets the
state so a subsequent `_init_selenium` creates a fresh handle. -/
theorem C7_init_idempotent_close_resets (d : Driver) (st : ScraperState) :
    (st.driverOpen = true → initSelenium d st = .ok (st, false)) ∧
    (st.driverOpen = false → d.startFails = false →
      initSelenium d st = .ok (⟨true⟩, true)) ∧
    ((closeScraper st).1.driverOpen = false) ∧
    (st.driverOpen = true → (closeScraper st).2 = [.shutdown]) ∧
    (st.driverOpen = false → (closeScraper st).2 = []) ∧
    (d.startFails = false →
      initSelenium d (closeScraper st).1 = .ok (⟨true⟩, true)) := by
  rcases h : st.driverOpen <;>
    rcases h2 : d.startFails <;>
    simp [initSelenium, closeScraper, h, h2]

/-- Witness for C7 with an open session and a working backend. -/
theorem C7_init_idempotent_close_resets_witness :
    initSelenium driverOk ⟨true⟩ = .ok (⟨true⟩, false) ∧
    (closeScraper ⟨true⟩).2 = [.shutdown] ∧
    initSelenium driverOk (closeScraper ⟨true⟩).1 = .ok (⟨true⟩, true) :=
  ⟨(C7_init_idempotent_close_resets driverOk ⟨true⟩).1 rfl,
   (C7_init_idempotent_close_resets driverOk ⟨true⟩).2.2.2.1 rfl,
   (C7_init_idempotent_close_resets driverOk ⟨true⟩).2.2.2.2.2 rfl⟩

/-- C3: if navigation raises, the run writes no file, the printed summary is
"No data available" (followed by the completion line), the process exits 0,
and the browser handle is shut down and cleared on that exit path. -/
theorem C3_navigation_failure (d : Driver) (symbol now : String)
    (hs : d.startFails = false) (hn : d.navFails = true) :
    (mainRun d symbol now).files = [] ∧
    (mainRun d symbol now).printed =
      ["No data available", "Scraping completed successfully!"] ∧
    (mainRun d symbol now).exitCode = 0 ∧
    (mainRun d symbol now).stAfter.driverOpen = false ∧
    Event.shutdown ∈ (mainRun d symbol now).events := by
  simp [mainRun, get_yahoo_finance_data, initSelenium, closeScraper,
    printStockData, hs, hn]

/-- Witness for C3 at a concrete backend whose navigation raises. -/
theorem C3_navigation_failure_witness :
    (mainRun driverNavFail "AAPL" "2024-01-01T00:00:00").files = [] ∧
    (mainRun driverNavFail "AAPL" "2024-01-01T00:00:00").printed =
      ["No data available", "Scraping completed successfully!"] ∧
    (mainRun driverNavFail "AAPL" "2024-01-01T00:00:00").exitCode = 0 ∧
    (mainRun driverNavFail "AAPL" "2024-01-01T00:00:00").stAfter.driverOpen = false ∧
    Event.shutdown ∈ (mainRun driverNavFail "AAPL" "2024-01-01T00:00:00").events :=
  C3_navigation_failure driverNavFail "AAPL" "2024-01-01T00:00:00" rfl rfl

/-- C4 counterexample: on a backend where the previous-close evaluation
succeeds with "300.00" but the open-price evaluation raises, the returned
snapshot keeps previous_close = "300.00"; the three secondary fields do
NOT all default to "N/A" even though a secondary evaluation raised. -/
theorem C4_counterexample :
    driverOpenEvalFails.evalFails .openProbe = true ∧
    ∃ r, (get_yahoo_finance_data driverOpenEvalFails ⟨false⟩ "AAPL"
            "2024-01-01T00:00:00").ret = .ok (some r) ∧
         r.previous_close = "300.00" ∧ r.openPrice = "N/A" ∧
         r.volume = "N/A" ∧ r.previous_close ≠ "N/A" := by
  refine ⟨rfl,
    { symbol := "AAPL", price := "N/A", change := "N/A",
      percent_change := "N/A", previous_close := "300.00",
      openPrice := "N/A", volume := "N/A", source := "Yahoo Finance",
      timestamp := "2024-01-01T00:00:00" }, ?_, rfl, rfl, rfl, by decide⟩
  rfl

/-- C4 (amended): when the secondary block fails, the fields from the
failing evaluation onward default to "N/A" (all three when the first
evaluation raises); fields extracted before the failure keep their values,
and the remaining fields are unaffected. -/
theorem C4_secondary_failure_boundary (d : Driver) (st : ScraperState)
    (symbol now : String) (r : StockResult)
    (hret : (get_yahoo_finance_data d st symbol now).ret = .ok (some r)) :
    (d.evalFails .prevCloseProbe = true →
      r.previous_close = "N/A" ∧ r.openPrice = "N/A" ∧ r.volume = "N/A") ∧
    (d.evalFails .openProbe = true → r.openPrice = "N/A" ∧ r.volume = "N/A") ∧
    (d.evalFails .volumeProbe = true → r.volume = "N/A") ∧
    r.symbol = symbol ∧
    r.price = runScript .priceProbe d.page ∧
    r.change = runScript .changeProbe d.page ∧
    r.percent_change = runScript .percentProbe d.page ∧
    r.source = "Yahoo Finance" ∧ r.timestamp = now := by
  rcases run_char d st symbol now with ⟨h, _⟩ | ⟨h, _⟩ | ⟨h, _⟩
  · rw [h] at hret; cases hret
  · rw [h] at hret; simp at hret
  · rw [h] at hret
    simp only [Except.ok.injEq, Option.some.injEq] at hret
    subst hret
    refine ⟨fun hf => ?_, fun hf => ?_, fun hf => ?_, rfl, rfl, rfl, rfl, rfl, rfl⟩
      <;> simp [snapshotOf, hf]

/-- Witness for C4 (amended) at the concrete backend of the counterexample. -/
theorem C4_secondary_failure_boundary_witness :
    driverOpenEvalFails.evalFails .openProbe = true ∧
    (({ symbol := "AAPL", price := "N/A", change := "N/A",
        percent_change := "N/A", previous_close := "300.00",
        openPrice := "N/A", volume := "N/A", source := "Yahoo Finance",
        timestamp := "2024-01-01T00:00:00" } : StockResult).openPrice = "N/A" ∧
     ({ symbol := "AAPL", price := "N/A", change := "N/A",
        percent_change := "N/A", previous_close := "300.00",
        openPrice := "N/A", volume := "N/A", source := "Yahoo Finance",
        timestamp := "2024-01-01T00:00:00" } : StockResult).volume = "N/A") :=
  ⟨rfl,
   (C4_secondary_failure_boundary driverOpenEvalFails ⟨false⟩ "AAPL"
      "2024-01-01T00:00:00"
      { symbol := "AAPL", price := "N/A", change := "N/A",
        percent_change := "N/A", previous_close := "300.00",
        openPrice := "N/A", volume := "N/A", source := "Yahoo Finance",
        timestamp := "2024-01-01T00:00:00" } rfl).2.1 rfl⟩

/-- C2: whenever a JSON result file is written, it is written at the
symbol-named path, the persisted object carries exactly the nine keys in
source order, and every field that was not successfully extracted equals
the literal string "N/A". -/
theorem C2_persisted_json_shape (d : Driver) (st : ScraperState)
    (symbol now p : String) (c : List (String × String))
    (h : FileWrite.json p c ∈ (get_yahoo_finance_data d st symbol now).files) :
    p = jsonPath symbol ∧
    c.map Prod.fst = nineKeys ∧
    ∃ r : StockResult, c = r.toPairs ∧
      (priceNotExtracted d.page = true → r.price = "N/A") ∧
      (changeNotExtracted d.page = true → r.change = "N/A") ∧
      (percentNotExtracted d.page = true → r.percent_change = "N/A") ∧
      (prevCloseNotExtracted d = true → r.previous_close = "N/A") ∧
      (openNotExtracted d = true → r.openPrice = "N/A") ∧
      (volumeNotExtracted d = true → r.volume = "N/A") := by
  rcases run_char d st symbol now with ⟨_, hf⟩ | ⟨_, hf⟩ | ⟨_, hf⟩
  · rw [hf] at h; cases h
  · rw [hf] at h; cases h
  · rw [hf] at h
    simp only [List.mem_cons, List.not_mem_nil, or_false] at h
    rcases h with h | h
    · cases h
    · injection h with hp hc
      refine ⟨hp, ?_, snapshotOf d symbol now, hc, ?_, ?_, ?_, ?_, ?_, ?_⟩
      · rw [hc]; rfl
      · intro hx
        simpa [snapshotOf] using priceNotExtracted_runScript d.page hx
      · intro hx
        simpa [snapshotOf] using changeNotExtracted_runScript d.page hx
      · intro hx
        simpa [snapshotOf] using percentNotExtracted_runScript d.page hx
      · exact fun hx => prevCloseNotExtracted_snapshot d symbol now hx
      · exact fun hx => openNotExtracted_snapshot d symbol now hx
      · exact fun hx => volumeNotExtracted_snapshot d symbol now hx

/-- Witness for C2 at a concrete successful run on an empty page: every
probe falls through to "N/A". -/
theorem C2_persisted_json_shape_witness :
    "stock_results/AAPL_yahoo.json" = jsonPath "AAPL" ∧
    ((snapshotOf driverOk "AAPL" "2024-01-01T00:00:00").toPairs.map
        Prod.fst = nineKeys) ∧
    ∃ r : StockResult,
      (snapshotOf driverOk "AAPL" "2024-01-01T00:00:00").toPairs = r.toPairs ∧
      (priceNotExtracted driverOk.page = true → r.price = "N/A") ∧
      (changeNotExtracted driverOk.page = true → r.change = "N/A") ∧
      (percentNotExtracted driverOk.page = true → r.percent_change = "N/A") ∧
      (prevCloseNotExtracted driverOk = true → r.previous_close = "N/A") ∧
      (openNotExtracted driverOk = true → r.openPrice = "N/A") ∧
      (volumeNotExtracted driverOk = true → r.volume = "N/A") :=
  C2_persisted_json_shape driverOk ⟨false⟩ "AAPL" "2024-01-01T00:00:00"
    "stock_results/AAPL_yahoo.json"
    (snapshotOf driverOk "AAPL" "2024-01-01T00:00:00").toPairs
    (by decide)

/-- C5: the consent click-injection script is never evaluated when the
lowercased title does not contain "consent"; when the session starts,
navigation succeeds and the title does contain it, exactly one consent
evaluation occurs and no data-extraction evaluation precedes it. -/
theorem C5_consent_heuristic (d : Driver) (st : ScraperState)
    (symbol now : String) :
    (containsSubstr (strLower d.title) "consent" = false →
      consentEvalCount (get_yahoo_finance_data d st symbol now).events = 0) ∧
    (d.startFails = false → d.navFails = false →
      containsSubstr (strLower d.title) "consent" = true →
      consentEvalCount (get_yahoo_finance_data d st symbol now).events = 1 ∧
      ((get_yahoo_finance_data d st symbol now).events.takeWhile
          (fun e => !isConsentEval e)).countP isDataEval = 0) :=
  ⟨fun h => consent_count_zero d st symbol now h,
   fun hs hn hc => consent_once_first d st symbol now hs hn hc⟩

/-- Witness for C5: a consent-free title yields zero consent evaluations, a
consent title yields exactly one. -/
theorem C5_consent_heuristic_witness :
    consentEvalCount
      (get_yahoo_finance_data driverOk ⟨false⟩ "AAPL"
        "2024-01-01T00:00:00").events = 0 ∧
    consentEvalCount
      (get_yahoo_finance_data driverConsent ⟨false⟩ "AAPL"
        "2024-01-01T00:00:00").events = 1 :=
  ⟨(C5_consent_heuristic driverOk ⟨false⟩ "AAPL" "2024-01-01T00:00:00").1
     (by decide),
   ((C5_consent_heuristic driverConsent ⟨false⟩ "AAPL"
       "2024-01-01T00:00:00").2 rfl rfl (by decide)).1⟩

/-- C9 counterexample: a run also reads `page_source` from the backend — an
interaction that is none of the five capabilities listed by the spec. -/
theorem C9_counterexample :
    Event.getPageSource ∈
      (mainRun driverOk "AAPL" "2024-01-01T00:00:00").events ∧
    specListedCapability Event.getPageSource = false := by
  exact ⟨by decide, rfl⟩

/-- C9 (amended): the workflow consumes exactly six capabilities from the
backend — navigate, evaluateScript, currentTitle, pageSource,
captureScreenshot and shutdown; every backend interaction of any run is one
of these six, and a concrete run exercises all six. -/
theorem C9_six_capabilities (d : Driver) (symbol now : String) :
    (∀ e ∈ (mainRun d symbol now).events,
      (∃ url, e = .navigate url) ∨ (∃ s, e = .evalScript s) ∨
      e = .getTitle ∨ e = .getPageSource ∨
      (∃ path, e = .screenshot path) ∨ e = .shutdown) ∧
    (mainRun driverConsent "AAPL" "2024-01-01T00:00:00").events =
      [.navigate "https://finance.yahoo.com/quote/AAPL", .getTitle,
       .evalScript .consentClick, .getPageSource,
       .evalScript .priceProbe, .evalScript .changeProbe,
       .evalScript .percentProbe, .evalScript .prevCloseProbe,
       .evalScript .openProbe, .evalScript .volumeProbe,
       .screenshot "stock_results/AAPL_screenshot.png", .shutdown] := by
  constructor
  · intro e _
    rcases e with url | s | _ | _ | path | _
    · exact Or.inl ⟨url, rfl⟩
    · exact Or.inr (Or.inl ⟨s, rfl⟩)
    · exact Or.inr (Or.inr (Or.inl rfl))
    · exact Or.inr (Or.inr (Or.inr (Or.inl rfl)))
    · exact Or.inr (Or.inr (Or.inr (Or.inr (Or.inl ⟨path, rfl⟩))))
    · exact Or.inr (Or.inr (Or.inr (Or.inr (Or.inr rfl))))
  · decide

/-- Witness for C9 (amended): the page-source read of a concrete run is one
of the six capabilities. -/
theorem C9_six_capabilities_witness :
    (∃ url, Event.getPageSource = Event.navigate url) ∨
    (∃ s, Event.getPageSource = Event.evalScript s) ∨
    Event.getPageSource = Event.getTitle ∨
    Event.getPageSource = Event.getPageSource ∨
    (∃ path, Event.getPageSource = Event.screenshot path) ∨
    Event.getPageSource = Event.shutdown :=
  (C9_six_capabilities driverOk "AAPL" "2024-01-01T00:00:00").1
    Event.getPageSource (by decide)

/-- C10: the price probe script evaluated by a run is the same constant for
every symbol (its selector list is the fixed `priceSelectors`); its last
selector hard-codes `data-symbol=\x27AAPL\x27`, so for any other symbol that
selector cannot match an element carrying the requested symbol. -/
theorem C10_price_script_constant_aapl (d : Driver) (st : ScraperState)
    (symbol now : String) (attrs : List (String × String))
    (hs : d.startFails = false) (hn : d.navFails = false)
    (hsym : symbol ≠ "AAPL")
    (hattr : attrs.lookup "data-symbol" = some symbol) :
    Event.evalScript .priceProbe ∈
      (get_yahoo_finance_data d st symbol now).events ∧
    containsSubstr (priceSelectors.getD 3 "") "data-symbol=\x27AAPL\x27" = true ∧
    attrSelectorMatches fourthSelectorAttrs attrs = false := by
  refine ⟨price_eval_in_events d st symbol now hs hn, by decide, ?_⟩
  simp [attrSelectorMatches, fourthSelectorAttrs, hattr, hsym]

/-- Witness for C10 at symbol "MSFT". -/
theorem C10_price_script_constant_aapl_witness :
    Event.evalScript Script.priceProbe ∈
      (get_yahoo_finance_data driverOk ⟨false⟩ "MSFT"
        "2024-01-01T00:00:00").events ∧
    containsSubstr (priceSelectors.getD 3 "") "data-symbol=\x27AAPL\x27" = true ∧
    attrSelectorMatches fourthSelectorAttrs [("data-symbol", "MSFT")] = false :=
  C10_price_script_constant_aapl driverOk ⟨false⟩ "MSFT" "2024-01-01T00:00:00"
    [("data-symbol", "MSFT")] rfl rfl (by decide) (by decide)

end StockScraper
